import Mathlib

set_option linter.unusedVariables false

/-
Verification development for the Manifold deployment portal.

The repository ships the frontend (frontend/src/api.ts and the React
components) together with its README; the backend service (deployment
executor, per-target locking, command translator, deployment store,
target registry) is referenced by the frontend and by the design
document but its code is not part of the checked sources.  Definitions
below therefore come in two flavours: shallow embeddings of the
TypeScript sources, and models of the missing backend components taken
from the design document, each marked as such in its doc comment.
-/

namespace Manifold

/-- Deployment lifecycle status.  From api.ts, interface DeploymentStatus,
the union type of the status field: queued, running, success, failed. -/
inductive Status where
  | queued
  | running
  | success
  | failed
deriving DecidableEq

/-- From api.ts, interface Target. -/
structure Target where
  id : Nat
  name : String
  address : String
  ssh_key_path : String
  ssh_user : String
  created_at : String
deriving DecidableEq

/-- From api.ts, interface TargetCreate.  The ssh_user field is optional
in the source (ssh_user?), hence an Option here. -/
structure TargetCreate where
  name : String
  address : String
  ssh_key_path : String
  ssh_user : Option String
deriving DecidableEq

/-- From api.ts, interface DeploymentRequest.  Optional fields of the
TypeScript interface are Options; an absent field is none. -/
structure DeploymentRequest where
  targetId : Nat
  image : Option String
  containerName : Option String
  ports : Option String
  composeFilePath : Option String
deriving DecidableEq

/-- The JSON body assembled by previewDeployment and applyDeployment and
serialized with JSON.stringify.  A field holding none corresponds to a
key that is absent from the serialized object (JSON.stringify drops
keys whose value is undefined). -/
structure DeploymentBody where
  target_id : Nat
  image : Option String
  container_name : Option String
  ports : Option String
  compose_file_path : Option String
deriving DecidableEq

/-- JavaScript truthiness of an optional string value: undefined and the
empty string are falsy, every other string is truthy. -/
def jsTruthy : Option String → Bool
  | none => false
  | some s => !(s == "")

/-- Body construction of previewDeployment, api.ts lines 75-87: when
request.composeFilePath is truthy only compose_file_path is set;
otherwise image and container_name are copied (possibly undefined) and
ports is set only when truthy. -/
def previewBody (r : DeploymentRequest) : DeploymentBody :=
  if jsTruthy r.composeFilePath then
    { target_id := r.targetId
      image := none
      container_name := none
      ports := none
      compose_file_path := r.composeFilePath }
  else
    { target_id := r.targetId
      image := r.image
      container_name := r.containerName
      ports := if jsTruthy r.ports then r.ports else none
      compose_file_path := none }

/-- Body construction of applyDeployment, api.ts lines 106-118; the code
is identical to the body construction in previewDeployment. -/
def applyBody (r : DeploymentRequest) : DeploymentBody :=
  if jsTruthy r.composeFilePath then
    { target_id := r.targetId
      image := none
      container_name := none
      ports := none
      compose_file_path := r.composeFilePath }
  else
    { target_id := r.targetId
      image := r.image
      container_name := r.containerName
      ports := if jsTruthy r.ports then r.ports else none
      compose_file_path := none }

/-- The single-container variant of the wire format counts as populated
when any of its distinguishing keys is present in the body. -/
def hasSingleVariant (b : DeploymentBody) : Bool :=
  b.image.isSome || b.container_name.isSome || b.ports.isSome

/-- The stack variant counts as populated when compose_file_path is
present in the body. -/
def hasStackVariant (b : DeploymentBody) : Bool :=
  b.compose_file_path.isSome

/-- Exactly one of the two DeploymentRequest variants is populated. -/
def exactlyOneVariant (b : DeploymentBody) : Bool :=
  (hasSingleVariant b && !hasStackVariant b) ||
    (hasStackVariant b && !hasSingleVariant b)

/-- Deployment type radio selection of the deployment form. -/
inductive DeploymentType where
  | single
  | compose
deriving DecidableEq

/-- State of the deployment form (DeploymentForm component): selected
target (none models the empty selection), deployment type, and the text
field values. -/
structure FormState where
  selectedTargetId : Option Nat
  deploymentType : DeploymentType
  image : String
  containerName : String
  ports : String
  composeFilePath : String
deriving DecidableEq

/-- JavaScript truthiness of the selectedTargetId state, which is a
number or the empty string in the source: the empty selection and the
number 0 are falsy. -/
def jsTruthyNum : Option Nat → Bool
  | none => false
  | some n => !(n == 0)

/-- Observable outcome of a form submit handler: either an error message
is set and no request is performed, or an HTTP request is issued with
the given DeploymentRequest. -/
inductive FormAction where
  | setError (msg : String)
  | issueRequest (r : DeploymentRequest)
deriving DecidableEq

/-- The DeploymentRequest value built at the call sites of
previewDeployment and applyDeployment in the form handlers: single-mode
fields are passed only in single mode, ports is passed as
(ports or undefined), composeFilePath only in compose mode. -/
def formRequest (s : FormState) : DeploymentRequest :=
  { targetId := s.selectedTargetId.getD 0
    image := if s.deploymentType = DeploymentType.single then some s.image else none
    containerName := if s.deploymentType = DeploymentType.single then some s.containerName else none
    ports :=
      if s.deploymentType = DeploymentType.single then
        (if s.ports = "" then none else some s.ports)
      else none
    composeFilePath := if s.deploymentType = DeploymentType.compose then some s.composeFilePath else none }

/-- handlePreview of the deployment form: guard clauses set an error and
return without a request; otherwise previewDeployment is called with
the built request. -/
def handlePreview (s : FormState) : FormAction :=
  if !(jsTruthyNum s.selectedTargetId) then
    FormAction.setError "Please select a VM target"
  else if s.deploymentType = DeploymentType.single ∧ (s.image = "" ∨ s.containerName = "") then
    FormAction.setError "Please fill in image and container name"
  else if s.deploymentType = DeploymentType.compose ∧ s.composeFilePath = "" then
    FormAction.setError "Please provide a Docker Compose file path"
  else
    FormAction.issueRequest (formRequest s)

/-- handleApply of the deployment form: the same guard clauses as
handlePreview, then applyDeployment is called with the built request. -/
def handleApply (s : FormState) : FormAction :=
  if !(jsTruthyNum s.selectedTargetId) then
    FormAction.setError "Please select a VM target"
  else if s.deploymentType = DeploymentType.single ∧ (s.image = "" ∨ s.containerName = "") then
    FormAction.setError "Please fill in image and container name"
  else if s.deploymentType = DeploymentType.compose ∧ s.composeFilePath = "" then
    FormAction.setError "Please provide a Docker Compose file path"
  else
    FormAction.issueRequest (formRequest s)

/-- The fields required by the selected mode are non-empty: image and
container name in single mode, the compose file path in compose mode. -/
def requiredFieldsFilled (s : FormState) : Bool :=
  match s.deploymentType with
  | DeploymentType.single => (!(s.image == "")) && (!(s.containerName == ""))
  | DeploymentType.compose => !(s.composeFilePath == "")

/-- isFormValid of the deployment form: a target must be selected and
the required fields of the selected mode must be truthy. -/
def isFormValid (s : FormState) : Bool :=
  if !(jsTruthyNum s.selectedTargetId) then false
  else requiredFieldsFilled s

/-- From api.ts, interface DeploymentPreviewResponse. -/
structure DeploymentPreviewResponse where
  ok : Bool
  target_id : Nat
  image : Option String
  container_name : Option String
  ports : Option String
  compose_file_path : Option String
  summary : String
deriving DecidableEq

/-- From api.ts, interface DeploymentStatus (the record returned by
applyDeployment and by the deployments listing). -/
structure DeploymentStatusRec where
  id : Nat
  target_id : Nat
  image : Option String
  container_name : Option String
  compose_file_path : Option String
  status : Status
  message : String
  created_at : String
deriving DecidableEq

/-- From api.ts, interface DeploymentLog: one log event as delivered by
the log-polling endpoint. -/
structure DeploymentLog where
  timestamp : String
  level : String
  message : String
deriving DecidableEq

/-- From api.ts, interface Container. -/
structure Container where
  id : String
  name : String
  image : String
  status : String
  ports : String
deriving DecidableEq

/-- JSON payload of the container-logs endpoint; getContainerLogs
returns its logs field. -/
structure LogsPayload where
  logs : String
deriving DecidableEq

/-- JSON payload of the env endpoints; the env object is modelled as an
association list of key-value pairs. -/
structure EnvPayload where
  env : List (String × String)
deriving DecidableEq

/-- JSON payload of the env-update endpoints; the update functions
return its message field. -/
structure MessagePayload where
  message : String
deriving DecidableEq

/-- An HTTP response as observed by the api.ts functions: the ok flag,
the statusText, the body text (what response.text() yields) and the
parsed JSON body (what response.json() yields) of type a. -/
structure HttpResponse (a : Type) where
  ok : Bool
  statusText : String
  bodyText : String
  json : a

/-- Substring containment on strings, used to state whether a thrown
error message includes a given text. -/
def strContains (hay pat : String) : Prop :=
  pat.toList <:+: hay.toList

instance (hay pat : String) : Decidable (strContains hay pat) := by
  unfold strContains
  infer_instance

/-- getTargets from api.ts: on a non-ok response it throws an Error
built from the statusText, otherwise it returns the parsed JSON. -/
def getTargets (r : HttpResponse (List Target)) : Except String (List Target) :=
  if !r.ok then Except.error ("Failed to fetch targets: " ++ r.statusText)
  else Except.ok r.json

/-- createTarget from api.ts: posts the TargetCreate payload; on a
non-ok response it throws an Error built from the statusText. -/
def createTarget (payload : TargetCreate) (r : HttpResponse Target) : Except String Target :=
  if !r.ok then Except.error ("Failed to create target: " ++ r.statusText)
  else Except.ok r.json

/-- previewDeployment from api.ts: posts previewBody request; on a
non-ok response it throws an Error built from the response body text. -/
def previewDeployment (request : DeploymentRequest)
    (r : HttpResponse DeploymentPreviewResponse) : Except String DeploymentPreviewResponse :=
  if !r.ok then Except.error ("Failed to preview deployment: " ++ r.bodyText)
  else Except.ok r.json

/-- applyDeployment from api.ts: posts applyBody request; on a non-ok
response it throws an Error built from the response body text. -/
def applyDeployment (request : DeploymentRequest)
    (r : HttpResponse DeploymentStatusRec) : Except String DeploymentStatusRec :=
  if !r.ok then Except.error ("Failed to apply deployment: " ++ r.bodyText)
  else Except.ok r.json

/-- getDeploymentLogs from api.ts. -/
def getDeploymentLogs (deploymentId : Nat)
    (r : HttpResponse (List DeploymentLog)) : Except String (List DeploymentLog) :=
  if !r.ok then Except.error ("Failed to get deployment logs: " ++ r.bodyText)
  else Except.ok r.json

/-- getTargetContainers from api.ts. -/
def getTargetContainers (targetId : Nat)
    (r : HttpResponse (List Container)) : Except String (List Container) :=
  if !r.ok then Except.error ("Failed to get containers: " ++ r.bodyText)
  else Except.ok r.json

/-- getContainerLogs from api.ts: returns the logs field of the parsed
payload on success. -/
def getContainerLogs (targetId : Nat) (containerName : String) (lines : Nat)
    (r : HttpResponse LogsPayload) : Except String String :=
  if !r.ok then Except.error ("Failed to get container logs: " ++ r.bodyText)
  else Except.ok r.json.logs

/-- getContainerEnv from api.ts: returns the env field of the parsed
payload on success. -/
def getContainerEnv (targetId : Nat) (containerName : String)
    (r : HttpResponse EnvPayload) : Except String (List (String × String)) :=
  if !r.ok then Except.error ("Failed to get container env: " ++ r.bodyText)
  else Except.ok r.json.env

/-- updateContainerEnv from api.ts: returns the message field of the
parsed payload on success. -/
def updateContainerEnv (targetId : Nat) (containerName : String)
    (env : List (String × String)) (r : HttpResponse MessagePayload) : Except String String :=
  if !r.ok then Except.error ("Failed to update container env: " ++ r.bodyText)
  else Except.ok r.json.message

/-- getTargetEnv from api.ts: returns the env field of the parsed
payload on success. -/
def getTargetEnv (targetId : Nat)
    (r : HttpResponse EnvPayload) : Except String (List (String × String)) :=
  if !r.ok then Except.error ("Failed to get target env: " ++ r.bodyText)
  else Except.ok r.json.env

/-- updateTargetEnv from api.ts: returns the message field of the
parsed payload on success. -/
def updateTargetEnv (targetId : Nat) (env : List (String × String))
    (r : HttpResponse MessagePayload) : Except String String :=
  if !r.ok then Except.error ("Failed to update target env: " ++ r.bodyText)
  else Except.ok r.json.message

/-- Modelled from the spec: the deployment executor state machine of
design section 4.3 (the executor code is not among the checked
sources).  Transitions are queued to running, running to success, and
running to failed; success and failed have no outgoing transitions. -/
inductive StatusTransition : Status → Status → Prop
  | dispatch : StatusTransition Status.queued Status.running
  | succeed : StatusTransition Status.running Status.success
  | fail : StatusTransition Status.running Status.failed

/-- Modelled from the spec: one deployment record as tracked by the
executor, reduced to the fields the locking discipline depends on. -/
structure DeploymentRec where
  target : Nat
  status : Status
deriving DecidableEq

/-- Modelled from the spec: executor-visible system state (the executor
code is not among the checked sources).  Deployment records are keyed
by id, nextId is the next fresh id, and locks holds the per-target
exclusive lock bits. -/
structure ExecState where
  deployments : Nat → Option DeploymentRec
  nextId : Nat
  locks : Nat → Bool

/-- The initial executor state: no deployments, all locks free. -/
def initState : ExecState :=
  { deployments := fun _ => none, nextId := 0, locks := fun _ => false }

/-- State after accepting a deployment against target t: a fresh record
is created in queued status. -/
def submitUpd (s : ExecState) (t : Nat) : ExecState :=
  { deployments := fun i => if i = s.nextId then some ⟨t, Status.queued⟩ else s.deployments i
    nextId := s.nextId + 1
    locks := s.locks }

/-- State after the executor starts a queued deployment i on record d:
the per-target lock is taken and the status becomes running. -/
def startUpd (s : ExecState) (i : Nat) (d : DeploymentRec) : ExecState :=
  { deployments := fun j => if j = i then some ⟨d.target, Status.running⟩ else s.deployments j
    nextId := s.nextId
    locks := fun t => if t = d.target then true else s.locks t }

/-- State after a running deployment i on record d reaches the terminal
outcome o: the status becomes o and the per-target lock is released. -/
def finishUpd (s : ExecState) (i : Nat) (d : DeploymentRec) (o : Status) : ExecState :=
  { deployments := fun j => if j = i then some ⟨d.target, o⟩ else s.deployments j
    nextId := s.nextId
    locks := fun t => if t = d.target then false else s.locks t }

/-- Modelled from the spec: the executor step relation of design
sections 4.3 and 5.  A deployment is accepted in queued status; before
transitioning to running the executor acquires the free exclusive lock
of its target; on completion the status becomes success or failed and
the lock is released. -/
inductive ExecStep : ExecState → ExecState → Prop
  | submit (s : ExecState) (t : Nat) : ExecStep s (submitUpd s t)
  | start (s : ExecState) (i : Nat) (d : DeploymentRec)
      (hd : s.deployments i = some d) (hq : d.status = Status.queued)
      (hl : s.locks d.target = false) : ExecStep s (startUpd s i d)
  | finish (s : ExecState) (i : Nat) (d : DeploymentRec) (o : Status)
      (hd : s.deployments i = some d) (hr : d.status = Status.running)
      (ho : o = Status.success ∨ o = Status.failed) : ExecStep s (finishUpd s i d o)

/-- Executor states reachable from the initial state by executor
steps, with steps of independent deployments interleaving freely. -/
inductive ExecReachable : ExecState → Prop
  | init : ExecReachable initState
  | step {s s' : ExecState} : ExecReachable s → ExecStep s s' → ExecReachable s'

/-- At most one deployment is in running status against any one target:
two running records with the same target have the same id. -/
def MutualExclusion (s : ExecState) : Prop :=
  ∀ i j di dj, s.deployments i = some di → s.deployments j = some dj →
    di.status = Status.running → dj.status = Status.running →
    di.target = dj.target → i = j

/-- Every running deployment holds the lock of its target. -/
def RunningLocked (s : ExecState) : Prop :=
  ∀ i d, s.deployments i = some d → d.status = Status.running →
    s.locks d.target = true

/-- The inductive invariant of the executor: mutual exclusion together
with the lock discipline that makes it inductive. -/
def ExecInv (s : ExecState) : Prop :=
  MutualExclusion s ∧ RunningLocked s

/-- Modelled from the spec: one log event of the deployment store
(timestamp, severity level, message); the store code is not among the
checked sources.  The wall-clock timestamp is modelled as a number. -/
structure LogEvent where
  timestamp : Nat
  level : String
  message : String
deriving DecidableEq

/-- Appending one emitted event to the per-deployment log sequence of
the deployment store (append-only). -/
def appendLog (store : List LogEvent) (e : LogEvent) : List LogEvent :=
  store ++ [e]

/-- The store contents after the first k of the events es have been
emitted, starting from an empty log sequence. -/
def storeAfter (es : List LogEvent) (k : Nat) : List LogEvent :=
  (es.take k).foldl appendLog []

/-- Modelled from the spec: the log-retrieval read of the deployment
store returns the current log sequence as is, in stored order. -/
def pollLogs (store : List LogEvent) : List LogEvent :=
  store

/-- Replace the timestamp of an event, keeping level and message. -/
def retime (f : Nat → Nat) (e : LogEvent) : LogEvent :=
  { timestamp := f e.timestamp, level := e.level, message := e.message }

/-- One log line as rendered by the DeploymentPanel component. -/
structure RenderedLogLine where
  cls : String
  timestampText : String
  levelText : String
  messageText : String
deriving DecidableEq

/-- Log rendering of DeploymentPanel, lines 229-239: the fetched array
is mapped in order to log lines; fmt stands for the locale time
formatting of the timestamp. -/
def renderLogs (fmt : String → String) (logs : List DeploymentLog) : List RenderedLogLine :=
  logs.map fun l =>
    { cls := "log-entry log-" ++ l.level.toLower
      timestampText := "[" ++ fmt l.timestamp ++ "]"
      levelText := "[" ++ l.level ++ "]"
      messageText := l.message }

/-- One list is a proper leading segment of another: a prefix of it and
distinct from it. -/
def ProperLeadOf (a b : List LogEvent) : Prop :=
  a <+: b ∧ a ≠ b

/-- Splitting a character list at a separator, accumulator version. -/
def splitCharAux (sep : Char) : List Char → List Char → List (List Char)
  | [], acc => [acc.reverse]
  | c :: cs, acc =>
      if c = sep then acc.reverse :: splitCharAux sep cs []
      else splitCharAux sep cs (c :: acc)

/-- Splitting a character list at every occurrence of a separator. -/
def splitChar (sep : Char) (cs : List Char) : List (List Char) :=
  splitCharAux sep cs []

/-- One segment matches host:container with numeric host and container
ports on both sides of a single colon. -/
def portPairOk (seg : List Char) : Bool :=
  match splitChar ':' seg with
  | [h, c] => (!h.isEmpty) && (!c.isEmpty) && h.all Char.isDigit && c.all Char.isDigit
  | _ => false

/-- Modelled from the spec: the ports string must match the pattern
host:container, optionally repeated with comma separators (design
section 4.2). -/
def validPortsSyntax (s : String) : Bool :=
  (splitChar ',' s.toList).all portPairOk

/-- Error taxonomy entry raised by request validation (design
section 7): a ValidationError carrying a message. -/
inductive DeployError where
  | validationError (msg : String)
deriving DecidableEq

/-- A translated command plan: the literal remote commands plus a
human-readable summary. -/
structure CommandPlan where
  commands : List String
  summary : String
deriving DecidableEq

/-- The repeated -p host:container flags for a ports string. -/
def portFlags : Option String → String
  | none => ""
  | some ps =>
      (splitChar ',' ps.toList).foldl (fun acc seg => acc ++ " -p " ++ String.mk seg) ""

/-- The remove-if-exists-then-run command pair for a single-container
deployment. -/
def singleCmds (img cname : String) (ps : Option String) : List String :=
  ["docker rm -f " ++ cname,
   "docker run -d --name " ++ cname ++ portFlags ps ++ " " ++ img]

/-- The compose up command for a stack deployment. -/
def composeCmd (path : String) : String :=
  "docker compose -f " ++ path ++ " up -d"

/-- Modelled from the spec: the Command Translator of design
section 4.2 (its code is not among the checked sources).  It is a pure
mapping from the wire-format request body to a command plan, rejecting
with a ValidationError a body that populates no complete variant, has
empty required fields, or carries a malformed ports string. -/
def translate (b : DeploymentBody) : Except DeployError CommandPlan :=
  match b.compose_file_path, b.image, b.container_name with
  | some path, _, _ =>
      if path = "" then
        Except.error (DeployError.validationError "compose_file_path must be a non-empty path")
      else
        Except.ok ⟨[composeCmd path], "Deploy Compose stack from " ++ path⟩
  | none, some img, some cname =>
      if img = "" then
        Except.error (DeployError.validationError "image must be non-empty")
      else if cname = "" then
        Except.error (DeployError.validationError "container_name must be non-empty")
      else
        match b.ports with
        | none =>
            Except.ok ⟨singleCmds img cname none, "Deploy " ++ img ++ " as " ++ cname⟩
        | some ps =>
            if validPortsSyntax ps then
              Except.ok ⟨singleCmds img cname (some ps), "Deploy " ++ img ++ " as " ++ cname⟩
            else
              Except.error (DeployError.validationError "ports must match the pattern host:container")
  | none, _, _ =>
      Except.error (DeployError.validationError "request must populate exactly one variant")

/-- Modelled from the spec: the apply path first runs the pure
translator and only on success opens a remote session (design
sections 4.2 and 7: validation errors are rejected before any remote
action).  The second component counts the remote sessions opened. -/
def applyPipeline (b : DeploymentBody) : Except DeployError CommandPlan × Nat :=
  match translate b with
  | Except.error e => (Except.error e, 0)
  | Except.ok p => (Except.ok p, 1)

/-- Modelled from the spec: one registered target of the Target
Registry with its VM-level environment variable set (the registry code
is not among the checked sources). -/
structure TargetRec where
  name : String
  address : String
  ssh_user : String
  ssh_key_path : String
  created_at : Nat
  env : List (String × String)
deriving DecidableEq

/-- Modelled from the spec: the target registry store, keyed by target
id. -/
def TargetStore : Type :=
  Nat → Option TargetRec

/-- Modelled from the spec: PUT targets env replaces the VM-level
environment variable set of the addressed target. -/
def updateTargetEnvStore (st : TargetStore) (tid : Nat) (e : List (String × String)) : TargetStore :=
  fun i => if i = tid then (st i).map (fun rec => { rec with env := e }) else st i

/-- Modelled from the spec: GET targets env reads the VM-level
environment variable set of the addressed target. -/
def getTargetEnvStore (st : TargetStore) (tid : Nat) : Option (List (String × String)) :=
  (st tid).map TargetRec.env

/-- The JSON object submitted by handleSubmit of TargetForm.tsx,
line 22: createTarget is called with the object of shorthand fields
name, type, address, rendered here as an association list of keys to
string values. -/
def targetFormSubmitBody (name ttype address : String) : List (String × String) :=
  [("name", name), ("type", ttype), ("address", address)]

/-- The field names of the TargetCreate payload of POST targets, from
api.ts interface TargetCreate and the design interface list. -/
def targetCreateFields : List String :=
  ["name", "address", "ssh_key_path", "ssh_user"]

/-- A singleton target store holding the example target of design
section 8 under id 1, used to instantiate the env round-trip. -/
def sampleTargetStore : TargetStore :=
  fun i => if i = 1 then some ⟨"vm1", "10.0.0.5", "root", "/key", 0, []⟩ else none

/-- C4: every deployment status is one of exactly queued, running,
success, failed; transitions go queued to running and running to
success or failed; success and failed are terminal, so no transition
(in particular no automatic retry) leaves them. -/
theorem c4_status_state_machine :
    (∀ s : Status, s = Status.queued ∨ s = Status.running ∨ s = Status.success ∨ s = Status.failed) ∧
    (∀ a b, StatusTransition a b →
      (a = Status.queued ∧ b = Status.running) ∨
      (a = Status.running ∧ (b = Status.success ∨ b = Status.failed))) ∧
    (∀ b, ¬ StatusTransition Status.success b) ∧
    (∀ b, ¬ StatusTransition Status.failed b) := by
  refine ⟨?_, ?_, ?_, ?_⟩
  · intro s
    cases s <;> simp
  · intro a b h
    cases h <;> simp
  · intro b h
    cases h
  · intro b h
    cases h

/-- C4 witness: the transition characterization applied to the concrete
dispatch transition from queued to running. -/
theorem c4_status_state_machine_witness :
    (Status.queued = Status.queued ∧ Status.running = Status.running) ∨
    (Status.queued = Status.running ∧
      (Status.running = Status.success ∨ Status.running = Status.failed)) :=
  c4_status_state_machine.2.1 Status.queued Status.running StatusTransition.dispatch

/-- C7: for every stored target, updating its environment to e and then
reading it back yields exactly e. -/
theorem c7_target_env_roundtrip :
    ∀ (st : TargetStore) (tid : Nat) (rec : TargetRec) (e : List (String × String)),
      st tid = some rec →
      getTargetEnvStore (updateTargetEnvStore st tid e) tid = some e := by
  intro st tid rec e h
  simp [getTargetEnvStore, updateTargetEnvStore, h]

/-- C7 witness: creating the example target, updating its env to the
map with A mapped to 1 and fetching it returns exactly that map. -/
theorem c7_target_env_roundtrip_witness :
    getTargetEnvStore (updateTargetEnvStore sampleTargetStore 1 [("A", "1")]) 1 =
      some [("A", "1")] :=
  c7_target_env_roundtrip sampleTargetStore 1 ⟨"vm1", "10.0.0.5", "root", "/key", 0, []⟩
    [("A", "1")] rfl

/-- C8: evaluation of the target-creation form at a concrete
submission.  The body submitted by TargetForm.handleSubmit carries no
ssh_key_path and no ssh_user key, but carries a type key, while the
TargetCreate payload of POST targets requires ssh_key_path and knows no
type field: the form diverges from the claimed payload shape. -/
theorem c8_target_form_divergence :
    (targetFormSubmitBody "vm1" "kubernetes" "10.0.0.5").lookup "ssh_key_path" = none ∧
    (targetFormSubmitBody "vm1" "kubernetes" "10.0.0.5").lookup "ssh_user" = none ∧
    (targetFormSubmitBody "vm1" "kubernetes" "10.0.0.5").lookup "type" = some "kubernetes" ∧
    "ssh_key_path" ∈ targetCreateFields ∧ "type" ∉ targetCreateFields := by
  refine ⟨rfl, rfl, rfl, ?_, ?_⟩ <;> decide

/-- C9 counterexample: getTargets builds its error message from the
statusText, so on a response whose body text is boom and whose
statusText differs, the thrown message does not include the body error
text. -/
theorem c9_error_text_counterexample :
    getTargets { ok := false, statusText := "Internal Server Error", bodyText := "boom", json := [] } =
      Except.error "Failed to fetch targets: Internal Server Error" ∧
    ¬ strContains "Failed to fetch targets: Internal Server Error" "boom" := by
  exact ⟨rfl, by decide⟩

/-- C9 amended: every api.ts operation returns an error exactly on a
non-ok response, with a message built from the statusText for
getTargets and createTarget and from the response body text for the
other nine operations, and returns the parsed result exactly on an ok
response. -/
theorem c9_error_propagation_amended :
    (∀ r : HttpResponse (List Target),
      (r.ok = false → getTargets r = Except.error ("Failed to fetch targets: " ++ r.statusText)) ∧
      (r.ok = true → getTargets r = Except.ok r.json)) ∧
    (∀ (p : TargetCreate) (r : HttpResponse Target),
      (r.ok = false → createTarget p r = Except.error ("Failed to create target: " ++ r.statusText)) ∧
      (r.ok = true → createTarget p r = Except.ok r.json)) ∧
    (∀ (q : DeploymentRequest) (r : HttpResponse DeploymentPreviewResponse),
      (r.ok = false → previewDeployment q r = Except.error ("Failed to preview deployment: " ++ r.bodyText)) ∧
      (r.ok = true → previewDeployment q r = Except.ok r.json)) ∧
    (∀ (q : DeploymentRequest) (r : HttpResponse DeploymentStatusRec),
      (r.ok = false → applyDeployment q r = Except.error ("Failed to apply deployment: " ++ r.bodyText)) ∧
      (r.ok = true → applyDeployment q r = Except.ok r.json)) ∧
    (∀ (i : Nat) (r : HttpResponse (List DeploymentLog)),
      (r.ok = false → getDeploymentLogs i r = Except.error ("Failed to get deployment logs: " ++ r.bodyText)) ∧
      (r.ok = true → getDeploymentLogs i r = Except.ok r.json)) ∧
    (∀ (i : Nat) (r : HttpResponse (List Container)),
      (r.ok = false → getTargetContainers i r = Except.error ("Failed to get containers: " ++ r.bodyText)) ∧
      (r.ok = true → getTargetContainers i r = Except.ok r.json)) ∧
    (∀ (i : Nat) (n : String) (k : Nat) (r : HttpResponse LogsPayload),
      (r.ok = false → getContainerLogs i n k r = Except.error ("Failed to get container logs: " ++ r.bodyText)) ∧
      (r.ok = true → getContainerLogs i n k r = Except.ok r.json.logs)) ∧
    (∀ (i : Nat) (n : String) (r : HttpResponse EnvPayload),
      (r.ok = false → getContainerEnv i n r = Except.error ("Failed to get container env: " ++ r.bodyText)) ∧
      (r.ok = true → getContainerEnv i n r = Except.ok r.json.env)) ∧
    (∀ (i : Nat) (n : String) (e : List (String × String)) (r : HttpResponse MessagePayload),
      (r.ok = false → updateContainerEnv i n e r = Except.error ("Failed to update container env: " ++ r.bodyText)) ∧
      (r.ok = true → updateContainerEnv i n e r = Except.ok r.json.message)) ∧
    (∀ (i : Nat) (r : HttpResponse EnvPayload),
      (r.ok = false → getTargetEnv i r = Except.error ("Failed to get target env: " ++ r.bodyText)) ∧
      (r.ok = true → getTargetEnv i r = Except.ok r.json.env)) ∧
    (∀ (i : Nat) (e : List (String × String)) (r : HttpResponse MessagePayload),
      (r.ok = false → updateTargetEnv i e r = Except.error ("Failed to update target env: " ++ r.bodyText)) ∧
      (r.ok = true → updateTargetEnv i e r = Except.ok r.json.message)) := by
  refine ⟨?_, ?_, ?_, ?_, ?_, ?_, ?_, ?_, ?_, ?_, ?_⟩ <;>
    intros <;>
    constructor <;>
    intro h <;>
    simp [getTargets, createTarget, previewDeployment, applyDeployment, getDeploymentLogs,
      getTargetContainers, getContainerLogs, getContainerEnv, updateContainerEnv,
      getTargetEnv, updateTargetEnv, h]

/-- C9 amended witness: the getTargets conjunct applied to a concrete
non-ok response. -/
theorem c9_error_propagation_amended_witness :
    getTargets { ok := false, statusText := "Bad Gateway", bodyText := "upstream down", json := [] } =
      Except.error ("Failed to fetch targets: " ++ "Bad Gateway") :=
  (c9_error_propagation_amended.1
    { ok := false, statusText := "Bad Gateway", bodyText := "upstream down", json := [] }).1 rfl

/-- C10: on the single-container path (composeFilePath not truthy), the
serialized body carries a ports key exactly when the ports string of
the request is a non-empty string; an absent or empty ports string
yields a body with no ports key. -/
theorem c10_ports_key_only_when_nonempty :
    ∀ r : DeploymentRequest, jsTruthy r.composeFilePath = false →
      ((r.ports = none ∨ r.ports = some "") →
        (previewBody r).ports = none ∧ (applyBody r).ports = none) ∧
      (∀ p, r.ports = some p → p ≠ "" →
        (previewBody r).ports = some p ∧ (applyBody r).ports = some p) := by
  intro r h
  constructor
  · intro hp
    have hb : jsTruthy r.ports = false := by
      rcases hp with hp | hp <;> rw [hp] <;> rfl
    simp [previewBody, applyBody, h, hb]
  · intro p hp hne
    have hb : jsTruthy (some p) = true := by
      simp [jsTruthy, hne]
    simp [previewBody, applyBody, h, hb, hp]

/-- C10 witness: a single-container request with an empty ports string
produces bodies with no ports key. -/
theorem c10_ports_key_only_when_nonempty_witness :
    (previewBody ⟨1, some "nginx:latest", some "web", some "", none⟩).ports = none ∧
    (applyBody ⟨1, some "nginx:latest", some "web", some "", none⟩).ports = none :=
  (c10_ports_key_only_when_nonempty ⟨1, some "nginx:latest", some "web", some "", none⟩
    rfl).1 (Or.inr rfl)

/-- C2: every request submitted through the form handlers via
previewDeployment or applyDeployment serializes to a body populating
exactly one DeploymentRequest variant, and for arbitrary requests the
body construction can never populate both variants at once. -/
theorem c2_exactly_one_variant :
    (∀ s r, handlePreview s = FormAction.issueRequest r →
      exactlyOneVariant (previewBody r) = true) ∧
    (∀ s r, handleApply s = FormAction.issueRequest r →
      exactlyOneVariant (applyBody r) = true) ∧
    (∀ r : DeploymentRequest,
      (hasSingleVariant (previewBody r) && hasStackVariant (previewBody r)) = false) ∧
    (∀ r : DeploymentRequest,
      (hasSingleVariant (applyBody r) && hasStackVariant (applyBody r)) = false) := by
  have hbody : ∀ s : FormState,
      (s.deploymentType = DeploymentType.compose → s.composeFilePath ≠ "") →
      exactlyOneVariant (previewBody (formRequest s)) = true ∧
      exactlyOneVariant (applyBody (formRequest s)) = true := by
    intro s hcp
    cases hdt : s.deploymentType with
    | single =>
        have hnone : jsTruthy none = false := rfl
        constructor <;>
          simp [previewBody, applyBody, formRequest, hdt, hnone,
            exactlyOneVariant, hasSingleVariant, hasStackVariant]
    | compose =>
        have htrue : jsTruthy (some s.composeFilePath) = true := by
          simp [jsTruthy, hcp hdt]
        constructor <;>
          simp [previewBody, applyBody, formRequest, hdt, htrue,
            exactlyOneVariant, hasSingleVariant, hasStackVariant]
  refine ⟨?_, ?_, ?_, ?_⟩
  · intro s r h
    unfold handlePreview at h
    split_ifs at h with h1 h2 h3 <;> simp at h
    obtain rfl := h.symm
    exact (hbody s fun hdt => fun hcp => h3 ⟨hdt, hcp⟩).1
  · intro s r h
    unfold handleApply at h
    split_ifs at h with h1 h2 h3 <;> simp at h
    obtain rfl := h.symm
    exact (hbody s fun hdt => fun hcp => h3 ⟨hdt, hcp⟩).2
  · intro r
    by_cases h : jsTruthy r.composeFilePath <;>
      simp [previewBody, h, hasSingleVariant, hasStackVariant]
  · intro r
    by_cases h : jsTruthy r.composeFilePath <;>
      simp [applyBody, h, hasSingleVariant, hasStackVariant]

/-- C2 witness: a concrete single-container form submission issues a
request whose preview body populates exactly one variant. -/
theorem c2_exactly_one_variant_witness :
    exactlyOneVariant (previewBody (formRequest
      ⟨some 1, DeploymentType.single, "nginx:latest", "web", "8080:80", ""⟩)) = true :=
  c2_exactly_one_variant.1 ⟨some 1, DeploymentType.single, "nginx:latest", "web", "8080:80", ""⟩
    (formRequest ⟨some 1, DeploymentType.single, "nginx:latest", "web", "8080:80", ""⟩) rfl

/-- C6: a form submit handler issues its HTTP request only when the
required fields of the selected mode are non-empty; when they are not,
it sets an error message and performs no request; and whenever
isFormValid holds, both handlers do issue a request. -/
theorem c6_form_validation_gates_requests :
    ∀ s : FormState,
      (∀ r, handlePreview s = FormAction.issueRequest r → requiredFieldsFilled s = true) ∧
      (∀ r, handleApply s = FormAction.issueRequest r → requiredFieldsFilled s = true) ∧
      (requiredFieldsFilled s = false →
        (∃ m, handlePreview s = FormAction.setError m) ∧
        (∃ m, handleApply s = FormAction.setError m)) ∧
      (isFormValid s = true →
        (∃ r, handlePreview s = FormAction.issueRequest r) ∧
        (∃ r, handleApply s = FormAction.issueRequest r)) := by
  intro s
  have hfill : ∀ (h2 : ¬(s.deploymentType = DeploymentType.single ∧ (s.image = "" ∨ s.containerName = "")))
      (h3 : ¬(s.deploymentType = DeploymentType.compose ∧ s.composeFilePath = "")),
      requiredFieldsFilled s = true := by
    intro h2 h3
    cases hdt : s.deploymentType with
    | single =>
        rw [hdt] at h2
        push_neg at h2
        obtain ⟨hi, hc⟩ := h2 rfl
        simp [requiredFieldsFilled, hdt, hi, hc]
    | compose =>
        rw [hdt] at h3
        push_neg at h3
        simp [requiredFieldsFilled, hdt, h3 rfl]
  refine ⟨?_, ?_, ?_, ?_⟩
  · intro r h
    unfold handlePreview at h
    split_ifs at h with h1 h2 h3 <;> simp at h
    exact hfill h2 h3
  · intro r h
    unfold handleApply at h
    split_ifs at h with h1 h2 h3 <;> simp at h
    exact hfill h2 h3
  · intro hf
    by_cases h1 : jsTruthyNum s.selectedTargetId
    · cases hdt : s.deploymentType with
      | single =>
          have hor : s.image = "" ∨ s.containerName = "" := by
            simpa [requiredFieldsFilled, hdt, Decidable.imp_iff_not_or] using hf
          constructor <;>
            exact ⟨"Please fill in image and container name",
              by simp [handlePreview, handleApply, h1, hdt, hor]⟩
      | compose =>
          have hcp : s.composeFilePath = "" := by
            simpa [requiredFieldsFilled, hdt] using hf
          constructor <;>
            exact ⟨"Please provide a Docker Compose file path",
              by simp [handlePreview, handleApply, h1, hdt, hcp]⟩
    · constructor <;>
        exact ⟨"Please select a VM target",
          by simp [handlePreview, handleApply, h1]⟩
  · intro hv
    have hv' : jsTruthyNum s.selectedTargetId = true ∧ requiredFieldsFilled s = true := by
      simpa [isFormValid] using hv
    obtain ⟨h1, hf⟩ := hv'
    have h2 : ¬(s.deploymentType = DeploymentType.single ∧ (s.image = "" ∨ s.containerName = "")) := by
      rintro ⟨hdt, hor⟩
      rw [requiredFieldsFilled, hdt] at hf
      rcases hor with ho | ho <;> simp [ho] at hf
    have h3 : ¬(s.deploymentType = DeploymentType.compose ∧ s.composeFilePath = "") := by
      rintro ⟨hdt, hcp⟩
      rw [requiredFieldsFilled, hdt] at hf
      simp [hcp] at hf
    constructor <;>
      exact ⟨formRequest s, by simp [handlePreview, handleApply, h1, h2, h3]⟩

/-- C6 witness: a single-container form state with an empty image sets
an error on preview, and a fully filled one passes the gate. -/
theorem c6_form_validation_gates_requests_witness :
    (∃ m, handlePreview ⟨some 1, DeploymentType.single, "", "web", "", ""⟩ = FormAction.setError m) ∧
    (∃ m, handleApply ⟨some 1, DeploymentType.single, "", "web", "", ""⟩ = FormAction.setError m) :=
  (c6_form_validation_gates_requests ⟨some 1, DeploymentType.single, "", "web", "", ""⟩).2.2.1 rfl

/-- Folding appendLog over a list of events appends the list to the
accumulator in emission order. -/
theorem foldl_appendLog (l : List LogEvent) (acc : List LogEvent) :
    l.foldl appendLog acc = acc ++ l := by
  induction l generalizing acc with
  | nil => simp
  | cons x xs ih => simp [appendLog, ih]

/-- The store after k emissions holds exactly the first k events in
emission order. -/
theorem storeAfter_eq (es : List LogEvent) (k : Nat) :
    storeAfter es k = es.take k := by
  simp [storeAfter, foldl_appendLog]

/-- C3: the deployment store appends events in emission order and log
polling returns the stored sequence as is, so a poll after k of the
emissions returns the emission-order prefix of length k — a proper
leading segment of the final sequence when the stream is unfinished;
reordering timestamps does not change the returned order; and the
deployment panel renders the returned events in exactly the returned
order. -/
theorem c3_log_order_emission :
    (∀ store e, pollLogs (appendLog store e) = pollLogs store ++ [e]) ∧
    (∀ es k, pollLogs (storeAfter es k) = es.take k) ∧
    (∀ es k, k < es.length →
      ProperLeadOf (pollLogs (storeAfter es k)) (pollLogs (storeAfter es es.length))) ∧
    (∀ f es k, storeAfter (es.map (retime f)) k = (storeAfter es k).map (retime f)) ∧
    (∀ fmt logs, (renderLogs fmt logs).map RenderedLogLine.messageText =
      logs.map DeploymentLog.message) := by
  refine ⟨?_, ?_, ?_, ?_, ?_⟩
  · intro store e
    simp [pollLogs, appendLog]
  · intro es k
    simp [pollLogs, storeAfter_eq]
  · intro es k hk
    constructor
    · simp only [pollLogs, storeAfter_eq, List.take_length]
      exact List.take_prefix k es
    · intro heq
      have hlen := congrArg List.length heq
      simp only [pollLogs, storeAfter_eq, List.take_length, List.length_take] at hlen
      omega
  · intro f es k
    simp [storeAfter_eq, List.map_take]
  · intro fmt logs
    simp [renderLogs, List.map_map]

/-- C3 witness: with three emitted lines L1, L2, L3, a poll after two
emissions returns a proper leading segment of the final sequence. -/
theorem c3_log_order_emission_witness :
    ProperLeadOf
      (pollLogs (storeAfter [⟨0, "INFO", "L1"⟩, ⟨1, "INFO", "L2"⟩, ⟨2, "INFO", "L3"⟩] 2))
      (pollLogs (storeAfter [⟨0, "INFO", "L1"⟩, ⟨1, "INFO", "L2"⟩, ⟨2, "INFO", "L3"⟩] 3)) :=
  c3_log_order_emission.2.2.1
    [⟨0, "INFO", "L1"⟩, ⟨1, "INFO", "L2"⟩, ⟨2, "INFO", "L3"⟩] 2 (by simp)

/-- C5: a deployment body whose ports string fails the
host:container pattern is rejected by the translator with a
ValidationError, and the pipeline opens no remote session for it. -/
theorem c5_malformed_ports_rejected :
    ∀ (b : DeploymentBody) (ps : String), b.compose_file_path = none → b.ports = some ps →
      validPortsSyntax ps = false →
      (∃ m, (applyPipeline b).1 = Except.error (DeployError.validationError m)) ∧
      (applyPipeline b).2 = 0 := by
  intro b ps hcf hps hvp
  have hexists : ∃ m, translate b = Except.error (DeployError.validationError m) := by
    obtain ⟨tid, img, cname, prt, cf⟩ := b
    simp only at hcf hps
    subst hcf
    subst hps
    cases img with
    | none =>
        cases cname with
        | none => exact ⟨"request must populate exactly one variant", rfl⟩
        | some c => exact ⟨"request must populate exactly one variant", rfl⟩
    | some i =>
        cases cname with
        | none => exact ⟨"request must populate exactly one variant", rfl⟩
        | some c =>
            by_cases hi : i = ""
            · exact ⟨"image must be non-empty", by simp [translate, hi]⟩
            · by_cases hc : c = ""
              · exact ⟨"container_name must be non-empty", by simp [translate, hi, hc]⟩
              · exact ⟨"ports must match the pattern host:container",
                  by simp [translate, hi, hc, hvp]⟩
  obtain ⟨m, hm⟩ := hexists
  exact ⟨⟨m, by simp [applyPipeline, hm]⟩, by simp [applyPipeline, hm]⟩

/-- C5 witness: the malformed ports string abc on an otherwise valid
single-container body is rejected with zero sessions opened. -/
theorem c5_malformed_ports_rejected_witness :
    (∃ m, (applyPipeline ⟨1, some "nginx:latest", some "web", some "abc", none⟩).1 =
      Except.error (DeployError.validationError m)) ∧
    (applyPipeline ⟨1, some "nginx:latest", some "web", some "abc", none⟩).2 = 0 :=
  c5_malformed_ports_rejected ⟨1, some "nginx:latest", some "web", some "abc", none⟩
    "abc" rfl rfl (by decide)

/-- The executor invariant holds in the initial state. -/
theorem execInv_init : ExecInv initState := by
  constructor
  · intro i j di dj hdi
    simp [initState] at hdi
  · intro i d hd
    simp [initState] at hd

/-- The executor invariant is preserved by every executor step. -/
theorem execInv_step {s s' : ExecState} (hinv : ExecInv s) (hstep : ExecStep s s') :
    ExecInv s' := by
  obtain ⟨hmx, hrl⟩ := hinv
  cases hstep with
  | submit t =>
      refine ⟨?_, ?_⟩
      · intro i j di dj hdi hdj hri hrj htg
        simp only [submitUpd] at hdi hdj
        by_cases hi : i = s.nextId
        · rw [if_pos hi] at hdi
          injection hdi with h
          subst h
          simp at hri
        · rw [if_neg hi] at hdi
          by_cases hj : j = s.nextId
          · rw [if_pos hj] at hdj
            injection hdj with h
            subst h
            simp at hrj
          · rw [if_neg hj] at hdj
            exact hmx i j di dj hdi hdj hri hrj htg
      · intro i d hd hr
        simp only [submitUpd] at hd ⊢
        by_cases hi : i = s.nextId
        · rw [if_pos hi] at hd
          injection hd with h
          subst h
          simp at hr
        · rw [if_neg hi] at hd
          exact hrl i d hd hr
  | start k d hd hq hl =>
      refine ⟨?_, ?_⟩
      · intro i j di dj hdi hdj hri hrj htg
        simp only [startUpd] at hdi hdj
        by_cases hi : i = k <;> by_cases hj : j = k
        · rw [hi, hj]
        · rw [if_pos hi] at hdi
          rw [if_neg hj] at hdj
          injection hdi with h
          subst h
          have hlj := hrl j dj hdj hrj
          simp only at htg
          rw [← htg] at hlj
          rw [hl] at hlj
          simp at hlj
        · rw [if_neg hi] at hdi
          rw [if_pos hj] at hdj
          injection hdj with h
          subst h
          have hli := hrl i di hdi hri
          simp only at htg
          rw [htg] at hli
          rw [hl] at hli
          simp at hli
        · rw [if_neg hi] at hdi
          rw [if_neg hj] at hdj
          exact hmx i j di dj hdi hdj hri hrj htg
      · intro i di hdi hri
        simp only [startUpd] at hdi ⊢
        by_cases hi : i = k
        · rw [if_pos hi] at hdi
          injection hdi with h
          subst h
          simp
        · rw [if_neg hi] at hdi
          have hli := hrl i di hdi hri
          by_cases ht : di.target = d.target
          · rw [if_pos ht]
          · rw [if_neg ht]
            exact hli
  | finish k d o hd hr ho =>
      have hno : o ≠ Status.running := by
        rcases ho with h | h <;> rw [h] <;> simp
      refine ⟨?_, ?_⟩
      · intro i j di dj hdi hdj hri hrj htg
        simp only [finishUpd] at hdi hdj
        by_cases hi : i = k
        · rw [if_pos hi] at hdi
          injection hdi with h
          subst h
          exact absurd hri hno
        · by_cases hj : j = k
          · rw [if_pos hj] at hdj
            injection hdj with h
            subst h
            exact absurd hrj hno
          · rw [if_neg hi] at hdi
            rw [if_neg hj] at hdj
            exact hmx i j di dj hdi hdj hri hrj htg
      · intro i di hdi hri
        simp only [finishUpd] at hdi ⊢
        by_cases hi : i = k
        · rw [if_pos hi] at hdi
          injection hdi with h
          subst h
          exact absurd hri hno
        · rw [if_neg hi] at hdi
          have hli := hrl i di hdi hri
          by_cases ht : di.target = d.target
          · exact absurd (hmx i k di d hdi hd hri hr ht) hi
          · rw [if_neg ht]
            exact hli

/-- Every reachable executor state satisfies the invariant. -/
theorem execReachable_inv {s : ExecState} (h : ExecReachable s) : ExecInv s := by
  induction h with
  | init => exact execInv_init
  | step hr hstep ih => exact execInv_step ih hstep

/-- C1: in every reachable executor state, at most one deployment is in
running status against any one target (the per-target lock taken before
the transition to running makes running deployments on the same target
mutually exclusive), while a reachable state with two deployments
running against distinct targets exists, so deployments against
distinct targets may execute concurrently. -/
theorem c1_running_mutual_exclusion :
    (∀ s, ExecReachable s → MutualExclusion s) ∧
    (∃ s, ExecReachable s ∧ ∃ i j di dj,
      s.deployments i = some di ∧ s.deployments j = some dj ∧
      di.status = Status.running ∧ dj.status = Status.running ∧
      di.target ≠ dj.target) := by
  constructor
  · intro s hs
    exact (execReachable_inv hs).1
  · have h0 : ExecReachable initState := ExecReachable.init
    have h1 := ExecReachable.step h0 (ExecStep.submit initState 0)
    have h2 := ExecReachable.step h1 (ExecStep.submit (submitUpd initState 0) 1)
    have h3 := ExecReachable.step h2
      (ExecStep.start (submitUpd (submitUpd initState 0) 1) 0 ⟨0, Status.queued⟩ rfl rfl rfl)
    have h4 := ExecReachable.step h3
      (ExecStep.start (startUpd (submitUpd (submitUpd initState 0) 1) 0 ⟨0, Status.queued⟩)
        1 ⟨1, Status.queued⟩ rfl rfl rfl)
    exact ⟨_, h4, 0, 1, ⟨0, Status.running⟩, ⟨1, Status.running⟩, rfl, rfl, rfl, rfl, by decide⟩

/-- C1 witness: the mutual-exclusion invariant applied to the concrete
initial reachable state. -/
theorem c1_running_mutual_exclusion_witness : MutualExclusion initState :=
  c1_running_mutual_exclusion.1 initState ExecReachable.init

end Manifold
